import Mathlib

/-!
Shallow embedding of the resilient XML-to-text extraction pipeline of
`src/fetch_all_drug_approval_data.py` (functions `parse_xml_doc`,
`handle_complex_xml_parsing`, `extract_text_from_parsed_doc`,
`extract_text_from_broken_xml`), together with theorems settling the
specification claims about it.

Strings are modelled as Lean `String`s; the regular-expression operations the
Python code performs (`re.sub`, `re.findall`, `re.search`, `re.split`) are
embedded as direct character-list scanners implementing the semantics of the
concrete patterns appearing in the source.  Python's `try/except` boundaries
are modelled with `Except`/explicit fault parameters where a claim is about
them.
-/

namespace Medeasy

/-- Python regex `\w` (ASCII range, as the data at hand is tag names). -/
def isPyWord (c : Char) : Bool := c.isAlphanum || c = '_'

/-- Python regex `\s` / `str.strip` whitespace (ASCII range). -/
def isPySpace (c : Char) : Bool :=
  c = ' ' || c = '\t' || c = '\n' || c = '\r' || c = '\x0b' || c = '\x0c'

/-- Split a character list at the first occurrence of `pat`:
returns the part before the match and the part after it. -/
def splitFirst (pat : List Char) : List Char → Option (List Char × List Char)
  | [] => if pat.isPrefixOf ([] : List Char) then some ([], []) else none
  | c :: rest =>
    if pat.isPrefixOf (c :: rest) then some ([], (c :: rest).drop pat.length)
    else
      match splitFirst pat rest with
      | some (b, a) => some (c :: b, a)
      | none => none

/-- Python `str.replace(pat, rep)`: replace every (non-overlapping,
left-to-right) occurrence.  Fuel-driven; `replaceAll` supplies enough fuel. -/
def replaceAllF (pat rep : List Char) : Nat → List Char → List Char
  | _, [] => []
  | 0, l => l
  | Nat.succ fuel, c :: rest =>
    if pat ≠ [] && pat.isPrefixOf (c :: rest) then
      rep ++ replaceAllF pat rep fuel ((c :: rest).drop pat.length)
    else
      c :: replaceAllF pat rep fuel rest

def replaceAll (pat rep l : List Char) : List Char :=
  replaceAllF pat rep l.length l

/-- `re.sub(openT + '(.*?)' + closeT, r'\1', s)`: non-greedy unwrapping of a
delimited region, scanning left to right, replacing each match by its captured
content.  Used for `<sub>…</sub>`, `<sup>…</sup>` and `<![CDATA[…]]>`. -/
def stripPairF (openT closeT : List Char) : Nat → List Char → List Char
  | _, [] => []
  | 0, l => l
  | Nat.succ fuel, c :: rest =>
    if openT.isPrefixOf (c :: rest) then
      match splitFirst closeT ((c :: rest).drop openT.length) with
      | some (content, after) => content ++ stripPairF openT closeT fuel after
      | none => c :: stripPairF openT closeT fuel rest
    else
      c :: stripPairF openT closeT fuel rest

def stripPair (openT closeT : List Char) (l : List Char) : List Char :=
  stripPairF openT closeT l.length l

/-- Hexadecimal digit class `[0-9a-fA-F]`. -/
def isHexDigitPy (c : Char) : Bool :=
  c.isDigit || ('a' ≤ c && c ≤ 'f') || ('A' ≤ c && c ≤ 'F')

/-- The `#\d+;` alternative of the entity lookahead. -/
def isDecRefAhead : List Char → Bool
  | [] => false
  | c :: r => c == '#' && !(r.takeWhile Char.isDigit).isEmpty &&
      ((r.dropWhile Char.isDigit).headD ' ' == ';')

/-- The `#x[0-9a-fA-F]+;` alternative of the entity lookahead. -/
def isHexRefAhead : List Char → Bool
  | [] => false
  | [_] => false
  | c :: d :: r => c == '#' && d == 'x' && !(r.takeWhile isHexDigitPy).isEmpty &&
      ((r.dropWhile isHexDigitPy).headD ' ' == ';')

/-- Is `l` the beginning of a recognized entity, i.e. does the Python
lookahead `(?=(amp;|lt;|gt;|apos;|quot;|#\d+;|#x[0-9a-fA-F]+;))` succeed on
the text following a `&`? -/
def entityAhead (l : List Char) : Bool :=
  "amp;".toList.isPrefixOf l || "lt;".toList.isPrefixOf l ||
  "gt;".toList.isPrefixOf l || "apos;".toList.isPrefixOf l ||
  "quot;".toList.isPrefixOf l ||
  isDecRefAhead l || isHexRefAhead l

/-- `re.sub(r'&(?!(amp;|lt;|gt;|apos;|quot;|#\d+;|#x[0-9a-fA-F]+;))', '&amp;', s)`:
escape every `&` not already starting a recognized entity. -/
def fixAmp : List Char → List Char
  | [] => []
  | c :: rest =>
    if c = '&' then
      if entityAhead rest then '&' :: fixAmp rest
      else '&' :: 'a' :: 'm' :: 'p' :: ';' :: fixAmp rest
    else c :: fixAmp rest

/-- `re.findall(r'<!\[CDATA\[(.*?)\]\]>', s, re.DOTALL)`: the captured
contents of all CDATA blocks, left to right, non-overlapping. -/
def findCdataF : Nat → List Char → List (List Char)
  | _, [] => []
  | 0, _ => []
  | Nat.succ fuel, c :: rest =>
    if "<![CDATA[".toList.isPrefixOf (c :: rest) then
      match splitFirst "]]>".toList ((c :: rest).drop 9) with
      | some (content, after) => content :: findCdataF fuel after
      | none => findCdataF fuel rest
    else
      findCdataF fuel rest

def findCdata (l : List Char) : List (List Char) :=
  findCdataF l.length l

/-- Lines 43–54 of the source: the Entity Sanitizer.  Unwrap `<sub>`/`<sup>`,
then repair bare ampersands inside each CDATA block, splicing each repaired
block back by exact string replacement of the original block. -/
def sanitize (s : String) : String :=
  let l1 := stripPair "<sub>".toList "</sub>".toList s.toList
  let l2 := stripPair "<sup>".toList "</sup>".toList l1
  let blocks := findCdata l2
  let l3 := blocks.foldl
    (fun acc b =>
      replaceAll ("<![CDATA[".toList ++ b ++ "]]>".toList)
                 ("<![CDATA[".toList ++ fixAmp b ++ "]]>".toList) acc)
    l2
  String.mk l3

/-- The attempt of the regex `<(\w+)(?:\s+[^>]*)?>` at a position just after a
`<`: returns the captured tag name and the text after the tag's `>`.
`\w+` is the maximal word run; the optional attribute group requires at least
one whitespace character and then runs to the first `>`. -/
def matchOpenTag (l : List Char) : Option (List Char × List Char) :=
  let name := l.takeWhile isPyWord
  if name.isEmpty then none
  else
    match l.drop name.length with
    | '>' :: r => some (name, r)
    | c :: r =>
      if isPySpace c then
        match splitFirst ['>'] (c :: r) with
        | some (_, rem) => some (name, rem)
        | none => none
      else none
    | [] => none

/-- `re.findall(r'<(\w+)(?:\s+[^>]*)?>[^<]*$', s)` (line 161 of the source):
scan left to right for an opening tag after whose `>` no further `<` occurs
before end-of-string.  A successful match extends to the end of the string, so
the result has at most one element. -/
def openedTagsGo : List Char → List String
  | [] => []
  | c :: rest =>
    if c = '<' then
      match matchOpenTag rest with
      | some (name, rem) =>
        if rem.contains '<' then openedTagsGo rest else [String.mk name]
      | none => openedTagsGo rest
    else openedTagsGo rest

def opened_tags (s : String) : List String := openedTagsGo s.toList

/-- Lines 161–163: append `</tag>` for each found tag, in reverse order. -/
def closeUnterminated (s : String) : String :=
  (opened_tags s).reverse.foldl (fun acc t => acc ++ "</" ++ t ++ ">") s

/-- `re.sub(r'<br\s*/?>', ' ', s)`: replace `<br`, optional whitespace, an
optional `/`, then `>`, with a single space. -/
def brToSpaceF : Nat → List Char → List Char
  | _, [] => []
  | 0, l => l
  | Nat.succ fuel, c :: rest =>
    if "<br".toList.isPrefixOf (c :: rest) then
      let after := (c :: rest).drop 3
      let ws := after.takeWhile isPySpace
      match after.drop ws.length with
      | '/' :: '>' :: r => ' ' :: brToSpaceF fuel r
      | '>' :: r => ' ' :: brToSpaceF fuel r
      | _ => c :: brToSpaceF fuel rest
    else c :: brToSpaceF fuel rest

def brToSpace (l : List Char) : List Char := brToSpaceF l.length l

/-- `re.sub(r'<[^>]+>', '', s)` / `re.sub(r'<[^>]*>', rep, s)`: replace each
`<…>` run (`minOne` selects `+` vs `*`) by `rep`. -/
def stripTagsF (minOne : Bool) (rep : List Char) : Nat → List Char → List Char
  | _, [] => []
  | 0, l => l
  | Nat.succ fuel, c :: rest =>
    if c = '<' then
      let inner := rest.takeWhile (· ≠ '>')
      match rest.drop inner.length with
      | '>' :: r =>
        if minOne && inner.isEmpty then c :: stripTagsF minOne rep fuel rest
        else rep ++ stripTagsF minOne rep fuel r
      | _ => c :: stripTagsF minOne rep fuel rest
    else c :: stripTagsF minOne rep fuel rest

def stripTags (minOne : Bool) (rep : List Char) (l : List Char) : List Char :=
  stripTagsF minOne rep l.length l

/-- Decoding table for `html.unescape`, modelled for the entities relevant to
this data: the five XML-predefined named entities, `&nbsp;`, and decimal/hex
numeric character references.  Unknown references are left untouched, as
`html.unescape` leaves them. -/
def decodeNamedEntity (l : List Char) : Option (Char × List Char) :=
  if "amp;".toList.isPrefixOf l then some ('&', l.drop 4)
  else if "lt;".toList.isPrefixOf l then some ('<', l.drop 3)
  else if "gt;".toList.isPrefixOf l then some ('>', l.drop 3)
  else if "quot;".toList.isPrefixOf l then some ('"', l.drop 5)
  else if "apos;".toList.isPrefixOf l then some ('\'', l.drop 5)
  else if "nbsp;".toList.isPrefixOf l then some (' ', l.drop 5)
  else
    match l with
    | '#' :: 'x' :: r =>
      let ds := r.takeWhile (fun c => c.isDigit || ('a' ≤ c && c ≤ 'f') || ('A' ≤ c && c ≤ 'F'))
      if ds.isEmpty then none
      else
        match r.drop ds.length with
        | ';' :: r2 => some (Char.ofNat (ds.foldl (fun n c => 16 * n + c.toNat % 16 + (if c.isDigit then 0 else 9)) 0), r2)
        | _ => none
    | '#' :: r =>
      let ds := r.takeWhile Char.isDigit
      if ds.isEmpty then none
      else
        match r.drop ds.length with
        | ';' :: r2 => some (Char.ofNat (ds.foldl (fun n c => 10 * n + (c.toNat - 48)) 0), r2)
        | _ => none
    | _ => none

/-- `html.unescape`, restricted per `decodeNamedEntity`. -/
def unescapeF : Nat → List Char → List Char
  | _, [] => []
  | 0, l => l
  | Nat.succ fuel, c :: rest =>
    if c = '&' then
      match decodeNamedEntity rest with
      | some (d, r) => d :: unescapeF fuel r
      | none => c :: unescapeF fuel rest
    else c :: unescapeF fuel rest

def pyUnescape (l : List Char) : List Char := unescapeF l.length l

/-- `re.sub(r' +', ' ', s)`: collapse runs of spaces (spaces only). -/
def collapseSpacesF : Nat → List Char → List Char
  | _, [] => []
  | 0, l => l
  | Nat.succ fuel, c :: rest =>
    if c = ' ' then ' ' :: collapseSpacesF fuel (rest.dropWhile (· = ' '))
    else c :: collapseSpacesF fuel rest

def collapseSpaces (l : List Char) : List Char := collapseSpacesF l.length l

/-- `re.sub(r'\s+', ' ', s)`: collapse whitespace runs to one space. -/
def collapseWsF : Nat → List Char → List Char
  | _, [] => []
  | 0, l => l
  | Nat.succ fuel, c :: rest =>
    if isPySpace c then ' ' :: collapseWsF fuel (rest.dropWhile isPySpace)
    else c :: collapseWsF fuel rest

def collapseWs (l : List Char) : List Char := collapseWsF l.length l

/-- Python `str.strip()` (whitespace per `isPySpace`). -/
def pyStrip (s : String) : String :=
  String.mk (((s.toList.dropWhile isPySpace).reverse.dropWhile isPySpace).reverse)

/-- `re.search(r'title="([^"]+)"', s)`: first captured title value. -/
def searchTitleGo : List Char → Option (List Char)
  | [] => none
  | c :: rest =>
    if "title=\"".toList.isPrefixOf (c :: rest) then
      let after := (c :: rest).drop 7
      let cap := after.takeWhile (· ≠ '"')
      if !cap.isEmpty && cap.length < after.length then some cap
      else searchTitleGo rest
    else searchTitleGo rest

/-- `re.findall(r'<ARTICLE title="([^"]+)"', s)`: all captured article
titles, non-overlapping, continuing after each full match. -/
def findArticleTitlesF : Nat → List Char → List (List Char)
  | _, [] => []
  | 0, _ => []
  | Nat.succ fuel, c :: rest =>
    if "<ARTICLE title=\"".toList.isPrefixOf (c :: rest) then
      let after := (c :: rest).drop 16
      let cap := after.takeWhile (· ≠ '"')
      if !cap.isEmpty && cap.length < after.length then
        cap :: findArticleTitlesF fuel (after.drop (cap.length + 1))
      else findArticleTitlesF fuel rest
    else findArticleTitlesF fuel rest

def findArticleTitles (l : List Char) : List (List Char) :=
  findArticleTitlesF l.length l

/-- `re.findall(r'<PARAGRAPH[^>]*>(.*?)</PARAGRAPH>', s, re.DOTALL)`. -/
def findParagraphsF : Nat → List Char → List (List Char)
  | _, [] => []
  | 0, _ => []
  | Nat.succ fuel, c :: rest =>
    if "<PARAGRAPH".toList.isPrefixOf (c :: rest) then
      let after := (c :: rest).drop 10
      let attrs := after.takeWhile (· ≠ '>')
      match after.drop attrs.length with
      | '>' :: r =>
        match splitFirst "</PARAGRAPH>".toList r with
        | some (content, after2) => content :: findParagraphsF fuel after2
        | none => findParagraphsF fuel rest
      | _ => findParagraphsF fuel rest
    else findParagraphsF fuel rest

def findParagraphs (l : List Char) : List (List Char) :=
  findParagraphsF l.length l

/-- `re.split(r'[.!?]\s+', s)`: split on sentence punctuation followed by at
least one whitespace character; delimiters are dropped. -/
def splitSentencesF : Nat → List Char → List Char → List String
  | _, [], acc => [String.mk acc.reverse]
  | 0, l, acc => [String.mk (acc.reverse ++ l)]
  | Nat.succ fuel, c :: rest, acc =>
    if (c = '.' || c = '!' || c = '?') && (rest.headD 'x' |> isPySpace) then
      String.mk acc.reverse :: splitSentencesF fuel (rest.dropWhile isPySpace) []
    else splitSentencesF fuel rest (c :: acc)

def splitSentences (l : List Char) : List String := splitSentencesF l.length l []

/-! ## XML tree and a model of `xml.etree.ElementTree.fromstring`

Only what the source reads is kept on each node: the tag, the attributes,
the text before the first child (Python `elem.text`, with `None` read back as
`''` by the source's `paragraph.text or ''`), and the child elements in
document order.  Well-formedness errors (`ET.ParseError`) are the `.error`
branch. -/

structure XElem where
  tag : String
  attrs : List (String × String)
  text : String
  children : List XElem
deriving Repr

/-- Python `elem.get(name, default)`. -/
def XElem.get (e : XElem) (name dflt : String) : String :=
  match e.attrs.find? (fun p => p.1 == name) with
  | some p => p.2
  | none => dflt

/-- XML Name start character (ASCII approximation, as in the data). -/
def isNameStart (c : Char) : Bool := c.isAlpha || c = '_' || c = ':'

def isNameChar (c : Char) : Bool :=
  c.isAlphanum || c = '_' || c = ':' || c = '-' || c = '.'

/-- An XML entity/character reference after a `&` in element content or an
attribute value.  Only the five predefined entities and numeric references
are defined; anything else is a well-formedness error. -/
def xmlRef (l : List Char) : Except String (Char × List Char) :=
  if "amp;".toList.isPrefixOf l then .ok ('&', l.drop 4)
  else if "lt;".toList.isPrefixOf l then .ok ('<', l.drop 3)
  else if "gt;".toList.isPrefixOf l then .ok ('>', l.drop 3)
  else if "quot;".toList.isPrefixOf l then .ok ('"', l.drop 5)
  else if "apos;".toList.isPrefixOf l then .ok ('\'', l.drop 5)
  else
    match l with
    | '#' :: 'x' :: r =>
      let ds := r.takeWhile (fun c => c.isDigit || ('a' ≤ c && c ≤ 'f') || ('A' ≤ c && c ≤ 'F'))
      if ds.isEmpty then .error "not well-formed"
      else
        match r.drop ds.length with
        | ';' :: r2 => .ok (Char.ofNat (ds.foldl (fun n c => 16 * n + c.toNat % 16 + (if c.isDigit then 0 else 9)) 0), r2)
        | _ => .error "not well-formed"
    | '#' :: r =>
      let ds := r.takeWhile Char.isDigit
      if ds.isEmpty then .error "not well-formed"
      else
        match r.drop ds.length with
        | ';' :: r2 => .ok (Char.ofNat (ds.foldl (fun n c => 10 * n + (c.toNat - 48)) 0), r2)
        | _ => .error "not well-formed"
    | _ => .error "undefined entity"

/-- Parse one double- or single-quoted attribute value (entities decoded, a
literal `<` is a well-formedness error). -/
def parseAttrValueF : Nat → Char → List Char → List Char → Except String (List Char × List Char)
  | 0, _, _, _ => .error "internal fuel exhausted"
  | Nat.succ fuel, q, l, acc =>
    match l with
    | [] => .error "unclosed token"
    | c :: rest =>
      if c = q then .ok (acc.reverse, rest)
      else if c = '<' then .error "not well-formed"
      else if c = '&' then
        match xmlRef rest with
        | .ok (d, r2) => parseAttrValueF fuel q r2 (d :: acc)
        | .error e => .error e
      else parseAttrValueF fuel q rest (c :: acc)

mutual

/-- Parse one element starting at `<`. -/
def parseElemF : Nat → List Char → Except String (XElem × List Char)
  | 0, _ => .error "internal fuel exhausted"
  | Nat.succ fuel, l =>
    match l with
    | '<' :: r =>
      let name := r.takeWhile isNameChar
      if name.isEmpty || !(isNameStart (name.headD ' ')) then .error "not well-formed"
      else
        match parseAttrListF fuel (r.drop name.length) [] with
        | .error e => .error e
        | .ok (attrs, r2) =>
          match r2 with
          | '/' :: '>' :: r3 => .ok (⟨String.mk name, attrs, "", []⟩, r3)
          | '>' :: r3 =>
            (match parseContentF fuel (String.mk name) r3 [] [] with
             | .ok (txt, kids, r4) => .ok (⟨String.mk name, attrs, String.mk txt.reverse, kids.reverse⟩, r4)
             | .error e => .error e)
          | _ => .error "not well-formed"
    | _ => .error "not well-formed"

/-- Parse the attribute list after a tag name (each attribute must be
preceded by whitespace; duplicate names are a well-formedness error). -/
def parseAttrListF : Nat → List Char → List (String × String) → Except String (List (String × String) × List Char)
  | 0, _, _ => .error "internal fuel exhausted"
  | Nat.succ fuel, l, acc =>
    let l1 := l.dropWhile isPySpace
    match l1 with
    | [] => .error "unclosed token"
    | '/' :: _ => .ok (acc.reverse, l1)
    | '>' :: _ => .ok (acc.reverse, l1)
    | c :: _ =>
      if l1.length = l.length then .error "not well-formed"
      else if !(isNameStart c) then .error "not well-formed"
      else
        let an := l1.takeWhile isNameChar
        let l2 := (l1.drop an.length).dropWhile isPySpace
        match l2 with
        | '=' :: l3 =>
          (match l3.dropWhile isPySpace with
           | q :: l4 =>
             if q = '"' || q = '\'' then
               match parseAttrValueF fuel q l4 [] with
               | .error e => .error e
               | .ok (v, l5) =>
                 if acc.any (fun p => p.1 == String.mk an) then .error "duplicate attribute"
                 else parseAttrListF fuel l5 ((String.mk an, String.mk v) :: acc)
             else .error "not well-formed"
           | [] => .error "unclosed token")
        | _ => .error "not well-formed"

/-- Parse element content up to the matching close tag.  Text (and CDATA and
reference) content before the first child accumulates into the `.text` field
(in reverse); after the first child it is validated but discarded, as the
source only ever reads `.text` and the children. -/
def parseContentF : Nat → String → List Char → List Char → List XElem → Except String (List Char × List XElem × List Char)
  | 0, _, _, _, _ => .error "internal fuel exhausted"
  | Nat.succ fuel, tag, l, txt, kids =>
    match l with
    | [] => .error "no element found"
    | '<' :: '/' :: r =>
      let name := r.takeWhile isNameChar
      if String.mk name = tag then
        match (r.drop name.length).dropWhile isPySpace with
        | '>' :: r2 => .ok (txt, kids, r2)
        | _ => .error "not well-formed"
      else .error "mismatched tag"
    | '<' :: '!' :: r =>
      if "[CDATA[".toList.isPrefixOf r then
        match splitFirst "]]>".toList (r.drop 7) with
        | some (content, after) =>
          parseContentF fuel tag after (if kids.isEmpty then content.reverse ++ txt else txt) kids
        | none => .error "unclosed token"
      else if "--".toList.isPrefixOf r then
        match splitFirst "-->".toList (r.drop 2) with
        | some (_, after) => parseContentF fuel tag after txt kids
        | none => .error "unclosed token"
      else .error "not well-formed"
    | '<' :: '?' :: r =>
      (match splitFirst "?>".toList r with
       | some (_, after) => parseContentF fuel tag after txt kids
       | none => .error "unclosed token")
    | '&' :: r =>
      (match xmlRef r with
       | .ok (d, r2) => parseContentF fuel tag r2 (if kids.isEmpty then d :: txt else txt) kids
       | .error e => .error e)
    | '<' :: _ =>
      (match parseElemF fuel l with
       | .ok (child, r2) => parseContentF fuel tag r2 txt (child :: kids)
       | .error e => .error e)
    | c :: r =>
      parseContentF fuel tag r (if kids.isEmpty then c :: txt else txt) kids

end

/-- Skip the document prolog: whitespace, an XML declaration or processing
instructions, comments. -/
def skipPrologF : Nat → List Char → Except String (List Char)
  | 0, l => .ok l
  | Nat.succ fuel, l =>
    let l1 := l.dropWhile isPySpace
    if "<?".toList.isPrefixOf l1 then
      match splitFirst "?>".toList (l1.drop 2) with
      | some (_, after) => skipPrologF fuel after
      | none => .error "unclosed token"
    else if "<!--".toList.isPrefixOf l1 then
      match splitFirst "-->".toList (l1.drop 4) with
      | some (_, after) => skipPrologF fuel after
      | none => .error "unclosed token"
    else .ok l1

/-- Model of `xml.etree.ElementTree.fromstring`: parse the root element and
require only trailing whitespace after it. -/
def fromstringET (s : String) : Except String XElem :=
  let l := s.toList
  match skipPrologF (l.length + 1) l with
  | .error e => .error e
  | .ok l1 =>
    match l1 with
    | [] => .error "no element found"
    | _ =>
      match parseElemF (2 * l.length + 16) l1 with
      | .error e => .error e
      | .ok (e, rest) =>
        if (rest.dropWhile isPySpace).isEmpty then .ok e
        else .error "junk after document element"

/-- Python `sep.join(parts)`. -/
def joinWith (sep : String) : List String → String
  | [] => ""
  | [x] => x
  | x :: y :: xs => x ++ sep ++ joinWith sep (y :: xs)

/-! ## The `ParsedDocument` data model (Python dicts of the source) -/

structure Article where
  title : String
  paragraphs : List String
deriving Repr, DecidableEq

structure DocSection where
  title : String
  articles : List Article
deriving Repr, DecidableEq

/-- The result dict of the pipeline.  `sections` is `none` when the Python
dict has no `sections` key (salvage / raw-text / error results); likewise
`error` and `raw`. -/
structure ParsedDoc where
  title : String
  type : String
  sections : Option (List DocSection)
  text : String
  error : Option String
  raw : Option String
deriving Repr, DecidableEq

/-- Substring test (Python `pat in s`). -/
def containsSub (pat l : List Char) : Bool := (splitFirst pat l).isSome

/-- Paragraph-text post-processing of the structured tier (lines 88–108):
conditional CDATA-marker removal, inline-tag removal, entity decoding,
`\r` removal, `\t` to space, space-run collapse, strip. -/
def clean_paragraph_text1 (t : String) : String :=
  let l0 := t.toList
  let l1 := if containsSub "![CDATA[".toList l0 then stripPair "<![CDATA[".toList "]]>".toList l0 else l0
  let l2 := stripTags true [] l1
  let l3 := pyUnescape l2
  let l4 := (l3.filter (fun c => c ≠ '\r')).map (fun c => if c = '\t' then ' ' else c)
  pyStrip (String.mk (collapseSpaces l4))

/-- Paragraph-text post-processing of the tag-repair tier (lines 198–209)
and of salvaged paragraph fragments (lines 306–313): as above but with no
CDATA step. -/
def clean_paragraph_text2 (t : String) : String :=
  let l2 := stripTags true [] t.toList
  let l3 := pyUnescape l2
  let l4 := (l3.filter (fun c => c ≠ '\r')).map (fun c => if c = '\t' then ' ' else c)
  pyStrip (String.mk (collapseSpaces l4))

/-- Lines 237–257: shared renderer from the parsed tree to display text. -/
def render_article (a : Article) : List String :=
  (if a.title != "" then ["\n■ " ++ a.title] else []) ++ a.paragraphs.map (fun p => "- " ++ p)

def extract_text_from_parsed_doc (d : ParsedDoc) : String :=
  joinWith "\n"
    ((if d.title != "" then ["【" ++ d.title ++ "】"] else []) ++
     ((d.sections.getD []).map (fun sec => (sec.articles.map render_article).flatten)).flatten)

/-- The section→article→paragraph walk of lines 60–124 (and its duplicate at
lines 170–225), parameterized by the paragraph cleaning function, which is
the only difference between the two copies. -/
def build_article (clean : String → String) (e : XElem) : Article :=
  { title := e.get "title" "",
    paragraphs := ((e.children.filter (fun c => c.tag == "PARAGRAPH")).map
      (fun p => clean p.text)).filter (fun t => t != "") }

def keep_article (a : Article) : Bool := !a.paragraphs.isEmpty || a.title != ""

def build_section (clean : String → String) (e : XElem) : DocSection :=
  { title := e.get "title" "",
    articles := ((e.children.filter (fun c => c.tag == "ARTICLE")).map
      (build_article clean)).filter keep_article }

def buildDoc (clean : String → String) (root : XElem) : ParsedDoc :=
  let secs := ((root.children.filter (fun c => c.tag == "SECTION")).map
    (build_section clean)).filter (fun s => !s.articles.isEmpty)
  let base : ParsedDoc :=
    { title := root.get "title" "", type := root.get "type" "",
      sections := some secs, text := "", error := none, raw := none }
  { base with text := extract_text_from_parsed_doc base }

/-! ## Regex Salvage Extractor (lines 259–358) -/

/-- Lines 323–326: strip every `<…>` to a space, decode entities, collapse
whitespace, strip. -/
def salvagePlain (s4 : String) : String :=
  pyStrip (String.mk (collapseWs (pyUnescape (stripTags false [' '] s4.toList))))

/-- Lines 329–330: sentence fragments longer than 10 characters, each
stripped with a period appended. -/
def meaningfulSentences (plain : String) : List String :=
  ((splitSentences plain.toList).filter (fun s => (pyStrip s).length > 10)).map
    (fun s => pyStrip s ++ ".")

/-- Text assembly of lines 296–335, given the extracted title, article
titles, raw paragraph contents, and the preprocessed string `s4`. -/
def salvageText (doc_title : String) (article_titles paragraph_contents : List String) (s4 : String) : String :=
  let header := "【" ++ doc_title ++ "】"
  let parts := [header]
    ++ (article_titles.filter (fun t => pyStrip t != "")).map (fun t => "\n■ " ++ t)
    ++ ((paragraph_contents.map clean_paragraph_text2).filter (fun c => c != "")).map (fun c => "- " ++ c)
  let text := joinWith "\n" parts
  if text = header then
    let meaningful := meaningfulSentences (salvagePlain s4)
    if !meaningful.isEmpty then header ++ "\n\n" ++ joinWith "\n- " ("" :: meaningful)
    else header ++ "\n\n- 텍스트 추출 실패"
  else text

/-- The pure body of `extract_text_from_broken_xml` (lines 266–337). -/
def extract_text_from_broken_xml_core (s : String) : ParsedDoc :=
  let l1 := stripPair "<![CDATA[".toList "]]>".toList s.toList
  let l2 := stripPair "<sub>".toList "</sub>".toList l1
  let l3 := stripPair "<sup>".toList "</sup>".toList l2
  let l4 := brToSpace l3
  let doc_title := match searchTitleGo l4 with
    | some t => String.mk t
    | none => "제목 없음"
  { title := doc_title, type := "text_extraction", sections := none,
    text := salvageText doc_title ((findArticleTitles l4).map String.mk)
      ((findParagraphs l4).map String.mk) (String.mk l4),
    error := none, raw := none }

/-- The `try/except` structure of lines 266–358.  `body` is the outcome of
the main body (an `Except.error` models a raised exception), `retryFault`
models a second exception inside the bare-`except` retry of lines 343–353.
The retry's tag-strip is applied to `original` (`original_xml`, line 264). -/
def extract_text_from_broken_xml_guarded (original : String) (body : Except String ParsedDoc) (retryFault : Bool) : ParsedDoc :=
  match body with
  | .ok r => r
  | .error _ =>
    if retryFault then
      { title := "추출 실패", type := "error", sections := none,
        text := "텍스트 추출에 실패했습니다.", error := none, raw := none }
    else
      { title := "텍스트 추출", type := "raw_text", sections := none,
        text := pyStrip (String.mk (collapseWs (pyUnescape (stripTags false [' '] original.toList)))),
        error := none, raw := none }

def extract_text_from_broken_xml (s : String) : ParsedDoc :=
  extract_text_from_broken_xml_guarded s (.ok (extract_text_from_broken_xml_core s)) false

/-! ## Tag-Repair Recovery (lines 143–235) -/

/-- The repair preprocessing of lines 148–163: strip CDATA markers, unwrap
`<sub>`/`<sup>`, turn `<br/>` into a space, escape bare ampersands over the
whole string, then append closing tags for the detected unterminated tag. -/
def repairXml (s : String) : String :=
  let l1 := stripPair "<![CDATA[".toList "]]>".toList s.toList
  let l2 := stripPair "<sub>".toList "</sub>".toList l1
  let l3 := stripPair "<sup>".toList "</sup>".toList l2
  let l4 := brToSpace l3
  closeUnterminated (String.mk (fixAmp l4))

def handle_complex_xml_parsing (s : String) : ParsedDoc :=
  let s2 := repairXml s
  match fromstringET s2 with
  | .ok root => buildDoc clean_paragraph_text2 root
  | .error _ => extract_text_from_broken_xml s2

/-! ## Top-level pipeline (lines 32–141) -/

def parse_xml_doc_body (s : String) : ParsedDoc :=
  let s1 := sanitize s
  match fromstringET s1 with
  | .ok root => buildDoc clean_paragraph_text1 root
  | .error _ => handle_complex_xml_parsing s1

def truncRaw (s : String) : String :=
  String.mk (s.toList.take 500) ++ (if s.length > 500 then "..." else "")

/-- The error dict of lines 135–141.  (In the Python, `raw` truncates the
`xml_string` variable as it stands when the exception fires, which the
in-place sanitizing steps may already have rewritten; the argument here is
the string the handler observes.) -/
def outerErrorDoc (e : String) (s : String) : ParsedDoc :=
  { title := "처리 오류", type := "error", sections := none,
    text := "처리 오류: " ++ e, error := some e, raw := some (truncRaw s) }

/-- The outermost guard of `parse_xml_doc`: the empty-input short-circuit of
lines 36–37 and the `except Exception` of lines 133–141, with the body's
outcome passed as an `Except` (an `Except.error` models a raised
exception). -/
def parse_xml_doc_guarded (s : String) (body : String → Except String ParsedDoc) : Option ParsedDoc :=
  if s = "" then none
  else
    match body s with
    | .ok r => some r
    | .error e => some (outerErrorDoc e s)

def parse_xml_doc (s : String) : Option ParsedDoc :=
  parse_xml_doc_guarded s (fun t => .ok (parse_xml_doc_body t))

/-! ## Derived notions used by the claims -/

def isOkE {ε α : Type} : Except ε α → Bool
  | .ok _ => true
  | .error _ => false

/-- The structural-dropping invariant of the tree-walking tiers: every
retained section has an article, every retained article has a title or a
paragraph, every retained paragraph is non-empty. -/
def docInvariant (d : ParsedDoc) : Bool :=
  (d.sections.getD []).all fun sec =>
    !sec.articles.isEmpty &&
    sec.articles.all fun a =>
      (a.title != "" || !a.paragraphs.isEmpty) && a.paragraphs.all (fun p => p != "")

/-- A well-formed input document (no escaping problems at all). -/
def inputWf : String :=
  "<DOC title=\"X\"><SECTION><ARTICLE title=\"A\"><PARAGRAPH>p</PARAGRAPH></ARTICLE></SECTION></DOC>"

/-- An input with two tags opened and never closed before end-of-string. -/
def inputUnclosed : String := "<DOC><SECTION>abc"

/-- The scenario input of the specification's §8. -/
def inputScenario : String :=
  "<DOC title=\"T\"><SECTION><ARTICLE title=\"A\"><PARAGRAPH>hello & world</PARAGRAPH></ARTICLE></SECTION></DOC>"

/-- Every ampersand of `l` already starts a recognized entity. -/
def goodAmp : List Char → Bool
  | [] => true
  | c :: rest => (c != '&' || entityAhead rest) && goodAmp rest

/-! ## Helper lemmas -/

theorem fixAmp_no_amp_append (p t : List Char) (hp : ∀ c ∈ p, c ≠ '&') :
    fixAmp (p ++ t) = p ++ fixAmp t := by
  induction p with
  | nil => simp
  | cons c p' ih =>
    have hc : c ≠ '&' := hp c (by simp)
    simp only [List.cons_append, fixAmp, if_neg hc]
    exact congrArg (c :: ·) (ih fun d hd => hp d (by simp [hd]))

theorem isPrefixOf_append_self (p x : List Char) : p.isPrefixOf (p ++ x) = true :=
  List.isPrefixOf_iff_prefix.mpr (List.prefix_append p x)

theorem takeWhile_all_append (p : Char → Bool) (ds : List Char) (b : Char) (x : List Char)
    (hds : ∀ c ∈ ds, p c = true) (hb : p b = false) :
    (ds ++ b :: x).takeWhile p = ds ∧ (ds ++ b :: x).dropWhile p = b :: x := by
  induction ds with
  | nil => simp [List.takeWhile_cons, List.dropWhile_cons, hb]
  | cons c ds' ih =>
    have hc : p c = true := hds c (by simp)
    have := ih fun d hd => hds d (by simp [hd])
    simp [List.takeWhile_cons, List.dropWhile_cons, hc, this.1, this.2]

theorem entityAhead_fixAmp {l : List Char} (h : entityAhead l = true) :
    entityAhead (fixAmp l) = true := by
  have named : ∀ (p : List Char), (∀ c ∈ p, c ≠ '&') → p.isPrefixOf l = true →
      p.isPrefixOf (fixAmp l) = true := by
    intro p hp hpre
    obtain ⟨t, rfl⟩ := List.isPrefixOf_iff_prefix.mp hpre
    rw [fixAmp_no_amp_append p t hp]
    exact isPrefixOf_append_self p (fixAmp t)
  simp only [entityAhead, Bool.or_eq_true] at h ⊢
  rcases h with ((((((h | h) | h) | h) | h) | h) | h)
  · exact Or.inl (Or.inl (Or.inl (Or.inl (Or.inl (Or.inl (named _ (by decide) h))))))
  · exact Or.inl (Or.inl (Or.inl (Or.inl (Or.inl (Or.inr (named _ (by decide) h))))))
  · exact Or.inl (Or.inl (Or.inl (Or.inl (Or.inr (named _ (by decide) h)))))
  · exact Or.inl (Or.inl (Or.inl (Or.inr (named _ (by decide) h))))
  · exact Or.inl (Or.inl (Or.inr (named _ (by decide) h)))
  · -- decimal numeric reference
    refine Or.inl (Or.inr ?_)
    rcases l with _ | ⟨c, r⟩
    · simp [isDecRefAhead] at h
    · simp only [isDecRefAhead, Bool.and_eq_true, beq_iff_eq] at h
      obtain ⟨⟨hc, hne⟩, hsemi⟩ := h
      subst hc
      rcases hdw : r.dropWhile Char.isDigit with _ | ⟨b, x⟩
      · rw [hdw] at hsemi; simp at hsemi
      · have hb : b = ';' := by rw [hdw] at hsemi; simpa using hsemi
        subst hb
        have hr : r.takeWhile Char.isDigit ++ ';' :: x = r := by
          conv_rhs => rw [← List.takeWhile_append_dropWhile Char.isDigit r]
          rw [hdw]
        have hds : ∀ cc ∈ r.takeWhile Char.isDigit, Char.isDigit cc = true :=
          fun cc hcc => List.mem_takeWhile_imp hcc
        have hnotamp : ∀ cc ∈ r.takeWhile Char.isDigit, cc ≠ '&' :=
          fun cc hcc heq => absurd (heq ▸ hds cc hcc) (by decide)
        have h1 : fixAmp ('#' :: r) = '#' :: fixAmp r := by
          simp only [fixAmp, if_neg (by decide : ¬('#' = '&'))]
        have h2 : fixAmp r = r.takeWhile Char.isDigit ++ ';' :: fixAmp x := by
          conv_lhs => rw [← hr]
          rw [fixAmp_no_amp_append _ _ hnotamp]
          simp only [fixAmp, if_neg (by decide : ¬(';' = '&'))]
        have tw := takeWhile_all_append Char.isDigit (r.takeWhile Char.isDigit) ';'
          (fixAmp x) hds (by decide)
        rw [h1, h2]
        simpa [isDecRefAhead, tw.1, tw.2] using hne
  · -- hexadecimal numeric reference
    refine Or.inr ?_
    rcases l with _ | ⟨c, _ | ⟨d, r⟩⟩
    · simp [isHexRefAhead] at h
    · simp [isHexRefAhead] at h
    · simp only [isHexRefAhead, Bool.and_eq_true, beq_iff_eq] at h
      obtain ⟨⟨⟨hc, hd⟩, hne⟩, hsemi⟩ := h
      subst hc; subst hd
      rcases hdw : r.dropWhile isHexDigitPy with _ | ⟨b, x⟩
      · rw [hdw] at hsemi; simp at hsemi
      · have hb : b = ';' := by rw [hdw] at hsemi; simpa using hsemi
        subst hb
        have hr : r.takeWhile isHexDigitPy ++ ';' :: x = r := by
          conv_rhs => rw [← List.takeWhile_append_dropWhile isHexDigitPy r]
          rw [hdw]
        have hds : ∀ cc ∈ r.takeWhile isHexDigitPy, isHexDigitPy cc = true :=
          fun cc hcc => List.mem_takeWhile_imp hcc
        have hnotamp : ∀ cc ∈ r.takeWhile isHexDigitPy, cc ≠ '&' :=
          fun cc hcc heq => absurd (heq ▸ hds cc hcc) (by decide)
        have h1 : fixAmp ('#' :: 'x' :: r) = '#' :: 'x' :: fixAmp r := by
          simp only [fixAmp, if_neg (by decide : ¬('#' = '&')),
            if_neg (by decide : ¬('x' = '&'))]
        have h2 : fixAmp r = r.takeWhile isHexDigitPy ++ ';' :: fixAmp x := by
          conv_lhs => rw [← hr]
          rw [fixAmp_no_amp_append _ _ hnotamp]
          simp only [fixAmp, if_neg (by decide : ¬(';' = '&'))]
        have tw := takeWhile_all_append isHexDigitPy (r.takeWhile isHexDigitPy) ';'
          (fixAmp x) hds (by decide)
        rw [h1, h2]
        simpa [isHexRefAhead, tw.1, tw.2] using hne

theorem goodAmp_fixAmp (l : List Char) : goodAmp (fixAmp l) = true := by
  induction l with
  | nil => rfl
  | cons c rest ih =>
    by_cases hc : c = '&'
    · subst hc
      by_cases he : entityAhead rest = true
      · simp [fixAmp, he, goodAmp, entityAhead_fixAmp he, ih]
      · simp only [fixAmp, if_pos rfl, if_neg he, goodAmp]
        have hamp : entityAhead ('a' :: 'm' :: 'p' :: ';' :: fixAmp rest) = true := by
          simp [entityAhead, List.isPrefixOf]
        simp [goodAmp, hamp, ih]
    · simp [fixAmp, hc, goodAmp, ih, hc]

theorem fixAmp_of_goodAmp (l : List Char) (h : goodAmp l = true) : fixAmp l = l := by
  induction l with
  | nil => rfl
  | cons c rest ih =>
    simp only [goodAmp, Bool.and_eq_true, Bool.or_eq_true] at h
    obtain ⟨h1, h2⟩ := h
    by_cases hc : c = '&'
    · subst hc
      have he : entityAhead rest = true := by
        rcases h1 with h1 | h1
        · simp at h1
        · exact h1
      simp [fixAmp, he, ih h2]
    · simp [fixAmp, hc, ih h2]

theorem fixAmp_idem (l : List Char) : fixAmp (fixAmp l) = fixAmp l :=
  fixAmp_of_goodAmp _ (goodAmp_fixAmp l)

theorem joinWith_cons_length (sep x : String) (xs : List String) :
    x.length ≤ (joinWith sep (x :: xs)).length := by
  cases xs with
  | nil => simp [joinWith]
  | cons y ys => simp [joinWith, String.length_append]; omega

theorem length_lmark_pos : 0 < ("【" : String).length := by decide

theorem length_header_pos (dt : String) : 0 < ("【" ++ dt ++ "】" : String).length := by
  have h1 := length_lmark_pos
  simp [String.length_append]
  omega

theorem ne_empty_of_length_pos {s : String} (h : 0 < s.length) : s ≠ "" := by
  intro he
  rw [he] at h
  simp at h

theorem salvageText_ne_empty (dt : String) (ats pcs : List String) (s4 : String) :
    salvageText dt ats pcs s4 ≠ "" := by
  simp only [salvageText, List.cons_append, List.nil_append]
  split
  · split
    · refine ne_empty_of_length_pos ?_
      simp only [String.length_append]
      have := length_lmark_pos
      omega
    · refine ne_empty_of_length_pos ?_
      simp only [String.length_append]
      have := length_lmark_pos
      omega
  · exact ne_empty_of_length_pos
      (Nat.lt_of_lt_of_le (length_header_pos dt) (joinWith_cons_length "\n" _ _))

theorem openedTagsGo_length_le_one (l : List Char) : (openedTagsGo l).length ≤ 1 := by
  induction l with
  | nil => simp [openedTagsGo]
  | cons c rest ih =>
    simp only [openedTagsGo]
    split
    · split
      · split
        · exact ih
        · simp
      · exact ih
    · exact ih

theorem map_render_sections (l : List DocSection) :
    l.map (fun sec => ((sec.articles.map render_article)).flatten)
      = (l.map DocSection.articles).map (fun arts => (arts.map render_article).flatten) := by
  rw [List.map_map]; rfl

/-! ## Claim theorems -/

/-- C1, counterexample: `inputWf` is well-formed XML (the structured tier's
parse succeeds on its sanitized form), yet the result's `type` field is `""`
(the root's absent `type` attribute), which is none of the five markers the
claim allows — in particular not `"structured"`. -/
theorem claim1_cex :
    isOkE (fromstringET (sanitize inputWf)) = true ∧
    (parse_xml_doc inputWf).map ParsedDoc.type = some "" ∧
    (parse_xml_doc inputWf).map ParsedDoc.type ≠ some "structured" ∧
    (parse_xml_doc inputWf).map ParsedDoc.type ≠ some "recovered" ∧
    (parse_xml_doc inputWf).map ParsedDoc.type ≠ some "salvaged" ∧
    (parse_xml_doc inputWf).map ParsedDoc.type ≠ some "raw_text" ∧
    (parse_xml_doc inputWf).map ParsedDoc.type ≠ some "error" := by
  decide

/-- C1, amended: for every non-empty input exactly one result is produced,
by the earliest tier that succeeds — the structured walk when the sanitized
input parses, the tag-repaired walk when only the repaired string parses,
and otherwise the regex salvage extractor, whose tier marker in the `type`
field is the string `"text_extraction"` (tiers 1–2 instead store the root's
`type` attribute). -/
theorem claim1_earliest_tier (s : String) (hs : s ≠ "") :
    (∀ root, fromstringET (sanitize s) = Except.ok root →
      parse_xml_doc s = some (buildDoc clean_paragraph_text1 root)) ∧
    (∀ e root, fromstringET (sanitize s) = Except.error e →
      fromstringET (repairXml (sanitize s)) = Except.ok root →
      parse_xml_doc s = some (buildDoc clean_paragraph_text2 root)) ∧
    (∀ e1 e2, fromstringET (sanitize s) = Except.error e1 →
      fromstringET (repairXml (sanitize s)) = Except.error e2 →
      parse_xml_doc s = some (extract_text_from_broken_xml (repairXml (sanitize s))) ∧
      (extract_text_from_broken_xml (repairXml (sanitize s))).type = "text_extraction") := by
  refine ⟨?_, ?_, ?_⟩
  · intro root h1
    simp [parse_xml_doc, parse_xml_doc_guarded, hs, parse_xml_doc_body, h1]
  · intro e root h1 h2
    simp [parse_xml_doc, parse_xml_doc_guarded, hs, parse_xml_doc_body, h1,
      handle_complex_xml_parsing, h2]
  · intro e1 e2 h1 h2
    constructor
    · simp [parse_xml_doc, parse_xml_doc_guarded, hs, parse_xml_doc_body, h1,
        handle_complex_xml_parsing, h2]
    · simp [extract_text_from_broken_xml, extract_text_from_broken_xml_guarded,
        extract_text_from_broken_xml_core]

/-- Witness for C1's amended theorem at `inputUnclosed`, where both parse
attempts fail and the salvage tier produces the result. -/
theorem claim1_earliest_tier_witness :
    parse_xml_doc inputUnclosed
      = some (extract_text_from_broken_xml (repairXml (sanitize inputUnclosed))) ∧
    (extract_text_from_broken_xml (repairXml (sanitize inputUnclosed))).type
      = "text_extraction" :=
  (claim1_earliest_tier inputUnclosed (by decide)).2.2 "no element found"
    "no element found" (by rfl) (by rfl)

/-- C2: for every non-empty input the pipeline returns a result; when the
body raises (modelled as an `Except.error`), the outermost boundary converts
it into an `error`-typed result with the placeholder text, instead of
propagating.  (The empty input returns `none`, again without raising.) -/
theorem claim2_never_throws (s : String) (body : String → Except String ParsedDoc)
    (hs : s ≠ "") :
    (∃ r, parse_xml_doc s = some r) ∧
    (∃ r, parse_xml_doc_guarded s body = some r) ∧
    (∀ e, body s = Except.error e →
      parse_xml_doc_guarded s body = some (outerErrorDoc e s) ∧
      (outerErrorDoc e s).type = "error" ∧
      (outerErrorDoc e s).text = "처리 오류: " ++ e) := by
  refine ⟨⟨parse_xml_doc_body s, ?_⟩, ?_, ?_⟩
  · simp [parse_xml_doc, parse_xml_doc_guarded, hs]
  · cases hb : body s with
    | ok r => exact ⟨r, by simp [parse_xml_doc_guarded, hs, hb]⟩
    | error e => exact ⟨outerErrorDoc e s, by simp [parse_xml_doc_guarded, hs, hb]⟩
  · intro e hb
    exact ⟨by simp [parse_xml_doc_guarded, hs, hb], rfl, rfl⟩

/-- Witness for C2 at a concrete input and a concrete faulting body. -/
theorem claim2_never_throws_witness :
    (∃ r, parse_xml_doc "x" = some r) ∧
    (∃ r, parse_xml_doc_guarded "x" (fun _ => Except.error "fault") = some r) ∧
    (∀ e, (fun _ => (Except.error "fault" : Except String ParsedDoc)) "x" = Except.error e →
      parse_xml_doc_guarded "x" (fun _ => Except.error "fault") = some (outerErrorDoc e "x") ∧
      (outerErrorDoc e "x").type = "error" ∧
      (outerErrorDoc e "x").text = "처리 오류: " ++ e) :=
  claim2_never_throws "x" (fun _ => Except.error "fault") (by decide)

/-- C3, counterexample: `<DOC></DOC>` is non-empty and non-whitespace, the
structured tier succeeds on it, and the resulting `text` is the empty
string. -/
theorem claim3_cex :
    "<DOC></DOC>" ≠ "" ∧ pyStrip "<DOC></DOC>" ≠ "" ∧
    (parse_xml_doc "<DOC></DOC>").map ParsedDoc.text = some "" := by
  decide

/-- C3, amended: the salvage tier's `text` is never empty (it always starts
with the `【…】` title header), and when no article title, no cleaned
paragraph and no meaningful sentence is recovered it is the literal
`텍스트 추출 실패` ("text extraction failed") marker — but the structured
tier may render empty text (see the counterexample). -/
theorem claim3_salvage_text_nonempty (dt : String) (ats pcs : List String) (s4 : String)
    (h1 : ats.filter (fun t => pyStrip t != "") = [])
    (h2 : (pcs.map clean_paragraph_text2).filter (fun c => c != "") = [])
    (h3 : meaningfulSentences (salvagePlain s4) = []) :
    (∀ s, (extract_text_from_broken_xml s).text ≠ "") ∧
    salvageText dt ats pcs s4 = "【" ++ dt ++ "】" ++ "\n\n- 텍스트 추출 실패" := by
  constructor
  · intro s
    simp only [extract_text_from_broken_xml, extract_text_from_broken_xml_guarded,
      extract_text_from_broken_xml_core]
    exact salvageText_ne_empty _ _ _ _
  · simp [salvageText, h1, h2, h3, joinWith]

/-- Witness for C3's amended theorem on concrete unproductive inputs. -/
theorem claim3_salvage_text_nonempty_witness :
    salvageText "t" [] [] "x" = "【" ++ "t" ++ "】" ++ "\n\n- 텍스트 추출 실패" :=
  (claim3_salvage_text_nonempty "t" [] [] "x" (by decide) (by decide) (by decide)).2

/-- C4, counterexample: on an input with two unterminated opening tags the
repair appends a closing tag only for the innermost one (`SECTION`), not for
each of them — `</DOC>` is never appended. -/
theorem claim4_cex :
    opened_tags inputUnclosed = ["SECTION"] ∧
    closeUnterminated inputUnclosed = "<DOC><SECTION>abc</SECTION>" ∧
    closeUnterminated inputUnclosed ≠ "<DOC><SECTION>abc</SECTION></DOC>" := by
  decide

/-- C4, amended: the unterminated-tag scan finds at most one tag — the most
recently opened tag whose text runs to end-of-string with no later `<` —
and the repair appends exactly that one closing tag (or none). -/
theorem claim4_at_most_one_close (s : String) :
    (opened_tags s).length ≤ 1 ∧
    (∀ t, opened_tags s = [t] → closeUnterminated s = s ++ "</" ++ t ++ ">") ∧
    (opened_tags s = [] → closeUnterminated s = s) := by
  refine ⟨openedTagsGo_length_le_one s.toList, ?_, ?_⟩
  · intro t ht
    simp [closeUnterminated, ht]
  · intro ht
    simp [closeUnterminated, ht]

/-- Witness for C4's amended theorem at the two-unclosed-tags input. -/
theorem claim4_at_most_one_close_witness :
    closeUnterminated inputUnclosed = inputUnclosed ++ "</" ++ "SECTION" ++ ">" :=
  (claim4_at_most_one_close inputUnclosed).2.1 "SECTION" (by decide)

/-- C5, counterexample: the full Entity Sanitizer is not idempotent — on
nested `<sub>` tags it unwraps one level per application, so a second run
changes its own output. -/
theorem claim5_cex :
    sanitize (sanitize "<sub><sub>a</sub></sub>") ≠ sanitize "<sub><sub>a</sub></sub>" ∧
    sanitize "<sub><sub>a</sub></sub>" = "<sub>a</sub>" ∧
    sanitize (sanitize "<sub><sub>a</sub></sub>") = "a" := by
  decide

/-- C5, amended: the ampersand-repair pass itself is idempotent, and an `&`
already followed by a recognized entity pattern is kept as is, never
rewritten to `&amp;` a second time; the sanitizer as a whole is not
idempotent because of the `<sub>`/`<sup>` unwrapping (see the
counterexample). -/
theorem claim5_amp_repair_idempotent :
    (∀ l, fixAmp (fixAmp l) = fixAmp l) ∧
    (∀ rest, entityAhead rest = true → fixAmp ('&' :: rest) = '&' :: fixAmp rest) :=
  ⟨fixAmp_idem, fun _ h => by simp [fixAmp, h]⟩

/-- Witness for C5's amended theorem at a concrete already-escaped entity. -/
theorem claim5_amp_repair_idempotent_witness :
    fixAmp ('&' :: "amp;x".toList) = '&' :: fixAmp "amp;x".toList :=
  claim5_amp_repair_idempotent.2 "amp;x".toList (by decide)

/-- C6, counterexample: on the §8 scenario input the structured tier does
NOT succeed — the bare `&` is outside any CDATA block, so the sanitizer
leaves it alone and the first parse fails — and the result's `type` is not
`"structured"`. -/
theorem claim6_cex :
    isOkE (fromstringET (sanitize inputScenario)) = false ∧
    (parse_xml_doc inputScenario).map ParsedDoc.type ≠ some "structured" := by
  decide

/-- C6, amended: on the scenario input the sanitizer returns the input
unchanged (there is no CDATA region), the first parse fails, the tag-repair
tier escapes the ampersand and its re-parse succeeds, and the result carries
exactly the claimed text `【T】\n\n■ A\n- hello & world` — with the `type`
field equal to `""` (the root's absent `type` attribute), not
`"structured"`. -/
theorem claim6_scenario_text :
    sanitize inputScenario = inputScenario ∧
    isOkE (fromstringET inputScenario) = false ∧
    isOkE (fromstringET (repairXml inputScenario)) = true ∧
    (parse_xml_doc inputScenario).map ParsedDoc.text
      = some "【T】\n\n■ A\n- hello & world" ∧
    (parse_xml_doc inputScenario).map ParsedDoc.type = some "" := by
  decide

/-- C7: structural dropping — in every document built by the tree-walking
tiers (either paragraph-cleaning variant), every retained section has at
least one article, every retained article has a non-empty title or at least
one paragraph, every retained paragraph is non-empty; and the rendered
`text` is exactly the shared renderer applied to the retained tree, so a
dropped article appears in neither. -/
theorem claim7_structural_dropping (clean : String → String) (root : XElem) :
    docInvariant (buildDoc clean root) = true ∧
    extract_text_from_parsed_doc (buildDoc clean root) = (buildDoc clean root).text := by
  constructor
  · simp only [docInvariant, buildDoc, Option.getD_some]
    rw [List.all_eq_true]
    intro sec hsec
    obtain ⟨hmem, hfilter⟩ := List.mem_filter.mp hsec
    rw [Bool.and_eq_true]
    refine ⟨hfilter, ?_⟩
    obtain ⟨e, _, rfl⟩ := List.mem_map.mp hmem
    rw [List.all_eq_true]
    intro a ha
    simp only [build_section] at ha
    obtain ⟨hamem, hkeep⟩ := List.mem_filter.mp ha
    rw [Bool.and_eq_true]
    constructor
    · simpa [keep_article, Bool.or_comm] using hkeep
    · obtain ⟨pe, _, rfl⟩ := List.mem_map.mp hamem
      simp only [build_article]
      rw [List.all_eq_true]
      intro p hp
      exact (List.mem_filter.mp hp).2
  · rfl

/-- C8, counterexample: the last-resort error result built inside the
salvage tier (reached when its body and its bare-`except` retry both fault)
has `type = "error"` but carries neither an `error` message nor a truncated
`raw` copy of the input. -/
theorem claim8_cex :
    (extract_text_from_broken_xml_guarded "x" (Except.error "fault") true).type = "error" ∧
    (extract_text_from_broken_xml_guarded "x" (Except.error "fault") true).error = none ∧
    (extract_text_from_broken_xml_guarded "x" (Except.error "fault") true).raw = none := by
  decide

/-- C8, amended: every error result produced at the outermost boundary of
`parse_xml_doc` carries both the error message and the first-500-characters
truncation of the input; only the salvage tier's inner last-resort error
result (see the counterexample) lacks them. -/
theorem claim8_outer_error_diagnostics (s e : String)
    (body : String → Except String ParsedDoc)
    (hs : s ≠ "") (hb : body s = Except.error e) :
    parse_xml_doc_guarded s body = some (outerErrorDoc e s) ∧
    (outerErrorDoc e s).type = "error" ∧
    (outerErrorDoc e s).error = some e ∧
    (outerErrorDoc e s).raw = some (truncRaw s) := by
  exact ⟨by simp [parse_xml_doc_guarded, hs, hb], rfl, rfl, rfl⟩

/-- Witness for C8's amended theorem at a concrete faulting body. -/
theorem claim8_outer_error_diagnostics_witness :
    parse_xml_doc_guarded "x" (fun _ => Except.error "fault")
      = some (outerErrorDoc "fault" "x") :=
  (claim8_outer_error_diagnostics "x" "fault" (fun _ => Except.error "fault")
    (by decide) rfl).1

/-- C9: the empty input short-circuits to the absent-document marker `none`
before any tier can run — whatever the tiers would have done (`body` is
arbitrary), the result is `none`, not an error result. -/
theorem claim9_empty_short_circuit :
    parse_xml_doc "" = none ∧ ∀ body, parse_xml_doc_guarded "" body = none :=
  ⟨rfl, fun _ => rfl⟩

/-- C10: the shared renderer never reads section titles — two parsed
documents with the same document title and the same per-section article
lists render to identical text, whatever their section titles are. -/
theorem claim10_section_title_insensitive (d1 d2 : ParsedDoc)
    (ht : d1.title = d2.title)
    (hs : (d1.sections.getD []).map DocSection.articles
        = (d2.sections.getD []).map DocSection.articles) :
    extract_text_from_parsed_doc d1 = extract_text_from_parsed_doc d2 := by
  simp only [extract_text_from_parsed_doc, ht, map_render_sections, hs]

/-- Witness for C10 at two concrete documents differing only in a section
title. -/
theorem claim10_section_title_insensitive_witness :
    extract_text_from_parsed_doc
        ⟨"t", "", some [⟨"s1", [⟨"a", ["p"]⟩]⟩], "", none, none⟩
      = extract_text_from_parsed_doc
        ⟨"t", "", some [⟨"s2", [⟨"a", ["p"]⟩]⟩], "", none, none⟩ :=
  claim10_section_title_insensitive _ _ rfl rfl

end Medeasy
